import Mathlib

/-!
# Login.jsx — the combined login / registration form

A shallow embedding of the `Login` component of `src/Login.jsx`.

* JavaScript strings are modelled by Lean strings (well-formed Unicode text).
  `String.prototype.length` counts UTF-16 code units, so it is `jsLength`,
  not the number of code points.  The email pattern has no `u` flag and runs
  over code units, but its only classes are the literals `@`, `.` and
  `[^\s@]`; both halves of a surrogate pair are in `[^\s@]`, so running the
  pattern over code points accepts the same strings.
* React state is the record `FormState`.  A handler closes over the state of
  the render it was created in and only *enqueues* updates through the
  setters; it is modelled as a function from that state to the list of
  updates it issues, in program order.  The state after the handler is the
  captured state with the updates applied in order.
* `axios.post` is modelled by a `Net`: the outcome of the k-th call of a
  submission is `outcomes k`, and every issued request is logged.  A fulfilled
  login response carries `data.user.username` as a string; a rejection carries
  an optional response with a status and an optional `error` text.
-/

namespace Login

/-! ## Strings -/

/-- ECMAScript `WhiteSpace` and `LineTerminator` code points: the characters
matched by `\s` and stripped by `String.prototype.trim`. -/
def isJsWhitespace (c : Char) : Bool :=
  c.toNat == 0x09 || c.toNat == 0x0A || c.toNat == 0x0B || c.toNat == 0x0C ||
  c.toNat == 0x0D || c.toNat == 0x20 || c.toNat == 0xA0 || c.toNat == 0x1680 ||
  (0x2000 ≤ c.toNat && c.toNat ≤ 0x200A) || c.toNat == 0x2028 ||
  c.toNat == 0x2029 || c.toNat == 0x202F || c.toNat == 0x205F ||
  c.toNat == 0x3000 || c.toNat == 0xFEFF

/-- Number of UTF-16 code units of one code point. -/
def utf16Units (c : Char) : Nat :=
  if c.toNat < 0x10000 then 1 else 2

/-- JavaScript `s.length`: the number of UTF-16 code units. -/
def jsLength (s : String) : Nat :=
  (s.data.map utf16Units).sum

/-- JavaScript `s.trim()`. -/
def jsTrim (s : String) : String :=
  ⟨((s.data.dropWhile isJsWhitespace).reverse.dropWhile isJsWhitespace).reverse⟩

/-- JavaScript truthiness of a string: every string but the empty one. -/
def jsTruthy (s : String) : Bool :=
  !s.data.isEmpty

/-! ## The regular expression `/^[^\s@]+@[^\s@]+\.[^\s@]+$/` -/

/-- A member of a bracketed character class. -/
inductive ClassItem where
  | space
  | lit (c : Char)

/-- Does the class member cover the character? -/
def ClassItem.test : ClassItem → Char → Bool
  | .space, c => isJsWhitespace c
  | .lit d, c => c == d

/-- A single-character matcher: a literal or a negated class `[^...]`. -/
inductive Atom where
  | lit (c : Char)
  | negClass (items : List ClassItem)

/-- Does the atom match the character? -/
def Atom.test : Atom → Char → Bool
  | .lit d, c => c == d
  | .negClass items, c => !(items.any fun i => i.test c)

/-- One element of the pattern: an atom, or an atom under `+`. -/
inductive Item where
  | one (a : Atom)
  | plus (a : Atom)

/-- Anchored matching (`^ ... $`) of a sequence of pattern elements against
the whole input, trying every way of splitting the input. -/
def matchItems : List Char → List Item → Bool
  | [], [] => true
  | [], _ :: _ => false
  | _ :: _, [] => false
  | c :: cs, .one a :: rest => a.test c && matchItems cs rest
  | c :: cs, .plus a :: rest =>
      a.test c && (matchItems cs (.plus a :: rest) || matchItems cs rest)

/-- The class `[^\s@]`. -/
def notSpaceAt : Atom :=
  .negClass [.space, .lit '@']

/-- The pattern `emailPattern` of `validateForm`. -/
def emailPattern : List Item :=
  [.plus notSpaceAt, .one (.lit '@'), .plus notSpaceAt, .one (.lit '.'), .plus notSpaceAt]

/-- JavaScript `pattern.test(s)` for an anchored pattern without flags. -/
def regexTest (p : List Item) (s : String) : Bool :=
  matchItems s.data p

/-! ## Component state -/

/-- The `formData` state object. -/
structure FormData where
  username : String
  email : String
  password : String
  deriving DecidableEq

/-- The four `useState` cells of the component. -/
structure FormState where
  isLogin : Bool
  formData : FormData
  message : String
  isError : Bool
  deriving DecidableEq

/-- A call of one of the four state setters. -/
inductive Update where
  | setIsLogin (b : Bool)
  | setFormData (d : FormData)
  | setMessage (m : String)
  | setIsError (b : Bool)
  deriving DecidableEq

/-- Effect of one setter call on the state. -/
def Update.apply (s : FormState) : Update → FormState
  | .setIsLogin b => { s with isLogin := b }
  | .setFormData d => { s with formData := d }
  | .setMessage m => { s with message := m }
  | .setIsError b => { s with isError := b }

/-- The state once all enqueued setter calls have been applied, in order. -/
def applyUpdates (s : FormState) (us : List Update) : FormState :=
  us.foldl Update.apply s

/-- The state on mount. -/
def initialState : FormState :=
  { isLogin := true, formData := ⟨"", "", ""⟩, message := "", isError := false }

/-- The three named inputs of the form. -/
inductive Field where
  | username
  | email
  | password
  deriving DecidableEq

/-- The handler `handleChange`: the spread copy of `formData` with one key replaced. -/
def handleChange (s : FormState) (f : Field) (value : String) : List Update :=
  match f with
  | .username => [.setFormData { s.formData with username := value }]
  | .email => [.setFormData { s.formData with email := value }]
  | .password => [.setFormData { s.formData with password := value }]

/-- The function `validateForm`: its return value and the setter calls it makes. -/
def validateForm (s : FormState) : Bool × List Update :=
  if !s.isLogin && !jsTruthy (jsTrim s.formData.username) then
    (false, [.setMessage "Please enter a username.", .setIsError true])
  else if !regexTest emailPattern s.formData.email then
    (false, [.setMessage "Please enter a valid email.", .setIsError true])
  else if jsLength s.formData.password < 6 then
    (false, [.setMessage "Password must be at least 6 characters long.", .setIsError true])
  else
    (true, [])

/-- The function `resetForm`. -/
def resetForm : List Update :=
  [.setFormData ⟨"", "", ""⟩, .setMessage "", .setIsError false]

/-! ## The HTTP collaborator -/

/-- The part of `error.response` the component reads: `status` and `data?.error`. -/
structure ErrorResponse where
  status : Nat
  error : Option String
  deriving DecidableEq

/-- A rejected `axios.post`; `response` is absent when no reply was received. -/
structure AxiosError where
  response : Option ErrorResponse
  deriving DecidableEq

/-- The part of a fulfilled response the component reads: `data.user.username`
(only read after a login call). -/
structure Response where
  username : String
  deriving DecidableEq

/-- A request issued through `axios.post`, with its JSON body. -/
inductive Request where
  | register (username email password : String)
  | login (email password : String)
  deriving DecidableEq

/-- The network during one submission: the outcome of each call by position,
and the requests issued so far. -/
structure Net where
  outcomes : Nat → Except AxiosError Response
  calls : List Request

/-- One awaited `axios.post`: logs the request and yields the next outcome. -/
def post (n : Net) (r : Request) : Except AxiosError Response × Net :=
  (n.outcomes n.calls.length, { n with calls := n.calls ++ [r] })

/-- The expression `error.response?.data?.error`. -/
def errorText (e : AxiosError) : Option String :=
  e.response.bind fun r => r.error

/-- The expression `text || fallback` on an optional string. -/
def orElse (text : Option String) (fallback : String) : String :=
  match text with
  | some t => if jsTruthy t then t else fallback
  | none => fallback

/-- The test `error.response?.status === 409`. -/
def isConflict (e : AxiosError) : Bool :=
  match e.response with
  | some r => r.status == 409
  | none => false

/-! ## The submission workflow -/

/-- The function `handleLogin`. -/
def handleLogin (s : FormState) (n : Net) : List Update × Net :=
  match post n (.login s.formData.email s.formData.password) with
  | (.ok response, n1) =>
      ([.setMessage ("Login successful. Welcome, " ++ response.username ++ "!"),
        .setIsError false] ++ resetForm, n1)
  | (.error error, n1) =>
      ([.setMessage (orElse (errorText error) "Login failed. Please check your credentials."),
        .setIsError true], n1)

/-- The function `tryLoginAfterRegister`. -/
def tryLoginAfterRegister (s : FormState) (n : Net) : List Update × Net :=
  match post n (.login s.formData.email s.formData.password) with
  | (.ok loginResponse, n1) =>
      ([.setMessage ("Login successful. Welcome back, " ++ loginResponse.username ++ "!"),
        .setIsError false] ++ resetForm, n1)
  | (.error loginError, n1) =>
      ([.setMessage (orElse (errorText loginError) "Login failed after registration attempt."),
        .setIsError true], n1)

/-- The `catch (error)` block of `handleRegisterAndLogin`. -/
def registerCatch (s : FormState) (error : AxiosError) (n : Net) : List Update × Net :=
  if isConflict error then
    tryLoginAfterRegister s n
  else
    ([.setMessage (orElse (errorText error) "Registration failed. Please try again."),
      .setIsError true], n)

/-- The function `handleRegisterAndLogin`: both calls sit in one `try` block, so
a rejection of either reaches the same `catch`. -/
def handleRegisterAndLogin (s : FormState) (n : Net) : List Update × Net :=
  match post n (.register s.formData.username s.formData.email s.formData.password) with
  | (.error error, n1) => registerCatch s error n1
  | (.ok _, n1) =>
      match post n1 (.login s.formData.email s.formData.password) with
      | (.error error, n2) => registerCatch s error n2
      | (.ok loginResponse, n2) =>
          ([.setMessage ("Registration and login successful. Welcome, " ++
              loginResponse.username ++ "!"),
            .setIsError false] ++ resetForm, n2)

/-- The function `handleSubmit`. -/
def handleSubmit (s : FormState) (n : Net) : List Update × Net :=
  match validateForm s with
  | (false, us) => (us, n)
  | (true, us) =>
      if s.isLogin then
        let r := handleLogin s n
        (us ++ r.1, r.2)
      else
        let r := handleRegisterAndLogin s n
        (us ++ r.1, r.2)

/-- One completed submission from state `s`: the resulting state and the
requests issued, in order. -/
def submit (s : FormState) (outcomes : Nat → Except AxiosError Response) :
    FormState × List Request :=
  let r := handleSubmit s { outcomes := outcomes, calls := [] }
  (applyUpdates s r.1, r.2.calls)

/-- The `onClick` handler of the mode-toggle button. -/
def toggleMode (s : FormState) : List Update :=
  [.setIsLogin (!s.isLogin)] ++ resetForm

/-! ## Runs of the component -/

/-- A user action, a submission carrying the outcomes of its network calls. -/
inductive Event where
  | change (f : Field) (value : String)
  | toggle
  | submit (outcomes : Nat → Except AxiosError Response)

/-- The state after one event. -/
def step (s : FormState) : Event → FormState
  | .change f value => applyUpdates s (handleChange s f value)
  | .toggle => applyUpdates s (toggleMode s)
  | .submit outcomes => (submit s outcomes).1

/-- The state after a sequence of events. -/
def run (s : FormState) (es : List Event) : FormState :=
  es.foldl step s

/-! ## Specification-side definitions and sample inputs -/

/-- The part of an email before its first `@` (the whole of it when there is none). -/
def localPart (cs : List Char) : List Char :=
  cs.takeWhile fun c => c != '@'

/-- The part of an email after its first `@` (empty when there is none). -/
def domainPart (cs : List Char) : List Char :=
  (cs.dropWhile fun c => c != '@').drop 1

/-- The accepted emails in the words of the specification: no whitespace,
exactly one `@`, something before it, and after it a `.` that is neither the
first nor the last character. -/
def EmailShape (e : String) : Prop :=
  (∀ c ∈ e.data, isJsWhitespace c = false) ∧ e.data.count '@' = 1 ∧
    localPart e.data ≠ [] ∧
    ∃ i, i < (domainPart e.data).length ∧ 0 < i ∧ i + 1 < (domainPart e.data).length ∧
      (domainPart e.data)[i]? = some '.'

instance (e : String) : Decidable (EmailShape e) := by
  unfold EmailShape
  infer_instance

/-- Rule 1 of the validator: Register mode and a username that is empty or
consists of whitespace only. -/
def UsernameRule (s : FormState) : Prop :=
  s.isLogin = false ∧ ∀ c ∈ s.formData.username.data, isJsWhitespace c = true

/-- Rule 2 of the validator: the email does not match the pattern. -/
def EmailRule (s : FormState) : Prop :=
  regexTest emailPattern s.formData.email = false

/-- Rule 3 of the validator: the password has fewer than six code units. -/
def PasswordRule (s : FormState) : Prop :=
  jsLength s.formData.password < 6

instance (s : FormState) : Decidable (UsernameRule s) := by
  unfold UsernameRule
  infer_instance

instance (s : FormState) : Decidable (EmailRule s) := by
  unfold EmailRule
  infer_instance

instance (s : FormState) : Decidable (PasswordRule s) := by
  unfold PasswordRule
  infer_instance

/-- Outcomes given by a finite script; a call past its end is rejected
without a response. -/
def scripted (xs : List (Except AxiosError Response)) : Nat → Except AxiosError Response :=
  fun k => xs.getD k (.error ⟨none⟩)

/-- A rejection carrying a response with the given status and `error` text. -/
def rejected (status : Nat) (text : Option String) : Except AxiosError Response :=
  .error ⟨some ⟨status, text⟩⟩

/-- A filled-in Login form that passes validation. -/
def sampleLogin : FormState :=
  { isLogin := true, formData := ⟨"", "alice@example.com", "secret1"⟩,
    message := "", isError := false }

/-- A filled-in Register form that passes validation. -/
def sampleRegister : FormState :=
  { isLogin := false, formData := ⟨"alice", "alice@example.com", "secret1"⟩,
    message := "", isError := false }

/-! ## Auxiliary facts: strings and the pattern matcher -/

theorem jsTrim_blank (u : String) :
    jsTruthy (jsTrim u) = false ↔ ∀ c ∈ u.data, isJsWhitespace c = true := by
  unfold jsTruthy jsTrim
  simp only [Bool.not_eq_false', List.isEmpty_iff, List.reverse_eq_nil_iff,
    List.dropWhile_eq_nil_iff, List.mem_reverse]
  constructor
  · intro h
    have hnil : u.data.dropWhile isJsWhitespace = [] := by
      by_contra hne
      have := List.head_dropWhile_not isJsWhitespace u.data hne
      have h2 := h _ (List.head_mem hne)
      simp [h2] at this
    exact List.dropWhile_eq_nil_iff.mp hnil
  · intro h
    have hnil : u.data.dropWhile isJsWhitespace = [] := List.dropWhile_eq_nil_iff.mpr h
    simp [hnil]

theorem matchItems_nil (cs : List Char) : matchItems cs [] = true ↔ cs = [] := by
  cases cs <;> simp [matchItems]

theorem matchItems_one (a : Atom) (rest : List Item) (cs : List Char) :
    matchItems cs (.one a :: rest) = true ↔
      ∃ c suf, cs = c :: suf ∧ a.test c = true ∧ matchItems suf rest = true := by
  cases cs with
  | nil => simp [matchItems]
  | cons c cs =>
    simp only [matchItems, Bool.and_eq_true, List.cons.injEq]
    constructor
    · rintro ⟨h1, h2⟩
      exact ⟨c, cs, ⟨rfl, rfl⟩, h1, h2⟩
    · rintro ⟨d, suf, ⟨rfl, rfl⟩, h1, h2⟩
      exact ⟨h1, h2⟩

theorem matchItems_plus (a : Atom) (rest : List Item) (cs : List Char) :
    matchItems cs (.plus a :: rest) = true ↔
      ∃ pre suf, cs = pre ++ suf ∧ pre ≠ [] ∧ (∀ x ∈ pre, a.test x = true) ∧
        matchItems suf rest = true := by
  induction cs with
  | nil =>
    simp only [matchItems, Bool.false_eq_true, false_iff]
    rintro ⟨pre, suf, h, hne, -, -⟩
    cases pre with
    | nil => exact hne rfl
    | cons p ps => simp at h
  | cons c cs ih =>
    simp only [matchItems, Bool.and_eq_true, Bool.or_eq_true, ih]
    constructor
    · rintro ⟨hc, h | h⟩
      · obtain ⟨pre, suf, rfl, -, hall, hm⟩ := h
        refine ⟨c :: pre, suf, rfl, by simp, ?_, hm⟩
        intro x hx
        rcases List.mem_cons.mp hx with rfl | hx
        · exact hc
        · exact hall x hx
      · exact ⟨[c], cs, rfl, by simp, by simpa using hc, h⟩
    · rintro ⟨pre, suf, h, hne, hall, hm⟩
      cases pre with
      | nil => exact absurd rfl hne
      | cons p ps =>
        simp only [List.cons_append, List.cons.injEq] at h
        obtain ⟨rfl, rfl⟩ := h
        refine ⟨hall c (List.mem_cons_self _ _), ?_⟩
        cases ps with
        | nil => right; simpa using hm
        | cons q qs =>
          left
          exact ⟨q :: qs, suf, rfl, by simp, fun x hx => hall x (List.mem_cons_of_mem _ hx), hm⟩

theorem notSpaceAt_test (x : Char) :
    notSpaceAt.test x = true ↔ isJsWhitespace x = false ∧ x ≠ '@' := by
  simp [notSpaceAt, Atom.test, ClassItem.test]

theorem lit_test (d x : Char) : (Atom.lit d).test x = true ↔ x = d := by
  simp [Atom.test]

/-- The pattern accepts exactly the strings `a ++ "@" ++ b ++ "." ++ c` with
`a`, `b`, `c` non-empty and free of whitespace and `@`. -/
theorem matchItems_emailPattern (cs : List Char) :
    matchItems cs emailPattern = true ↔
      ∃ a b c, cs = a ++ '@' :: (b ++ '.' :: c) ∧ a ≠ [] ∧ b ≠ [] ∧ c ≠ [] ∧
        ∀ x, x ∈ a ∨ x ∈ b ∨ x ∈ c → isJsWhitespace x = false ∧ x ≠ '@' := by
  unfold emailPattern
  constructor
  · intro h
    obtain ⟨a, r1, rfl, ha, hall_a, h⟩ := (matchItems_plus _ _ _).mp h
    obtain ⟨x1, r2, rfl, hx1, h⟩ := (matchItems_one _ _ _).mp h
    obtain ⟨b, r3, rfl, hb, hall_b, h⟩ := (matchItems_plus _ _ _).mp h
    obtain ⟨x2, r4, rfl, hx2, h⟩ := (matchItems_one _ _ _).mp h
    obtain ⟨c, r5, rfl, hc, hall_c, h⟩ := (matchItems_plus _ _ _).mp h
    have h5 := (matchItems_nil _).mp h
    subst h5
    rw [lit_test] at hx1 hx2
    subst hx1 hx2
    refine ⟨a, b, c, by simp, ha, hb, hc, ?_⟩
    rintro x (hx | hx | hx)
    · exact (notSpaceAt_test x).mp (hall_a x hx)
    · exact (notSpaceAt_test x).mp (hall_b x hx)
    · exact (notSpaceAt_test x).mp (hall_c x hx)
  · rintro ⟨a, b, c, rfl, ha, hb, hc, hall⟩
    refine (matchItems_plus _ _ _).mpr ⟨a, _, rfl, ha,
      fun x hx => (notSpaceAt_test x).mpr (hall x (Or.inl hx)), ?_⟩
    refine (matchItems_one _ _ _).mpr ⟨'@', _, rfl, (lit_test _ _).mpr rfl, ?_⟩
    refine (matchItems_plus _ _ _).mpr ⟨b, _, rfl, hb,
      fun x hx => (notSpaceAt_test x).mpr (hall x (Or.inr (Or.inl hx))), ?_⟩
    refine (matchItems_one _ _ _).mpr ⟨'.', _, rfl, (lit_test _ _).mpr rfl, ?_⟩
    refine (matchItems_plus _ _ _).mpr ⟨c, [], by simp, hc,
      fun x hx => (notSpaceAt_test x).mpr (hall x (Or.inr (Or.inr hx))), ?_⟩
    exact (matchItems_nil _).mpr rfl

theorem split_at_of_shape (cs : List Char) (hcount : cs.count '@' = 1) :
    cs = localPart cs ++ '@' :: domainPart cs ∧ '@' ∉ localPart cs ∧ '@' ∉ domainPart cs := by
  have hmem : '@' ∈ cs := List.count_pos_iff.mp (by omega)
  have hne : cs.dropWhile (fun c => c != '@') ≠ [] := by
    intro h
    have := List.dropWhile_eq_nil_iff.mp h _ hmem
    simp at this
  have hhead := List.head_dropWhile_not (fun c => c != '@') cs hne
  obtain ⟨d, ds, hd⟩ := List.exists_cons_of_ne_nil hne
  have hd0 : d = '@' := by
    simp only [hd, List.head_cons] at hhead
    simpa using hhead
  subst hd0
  have hsplit : cs = localPart cs ++ '@' :: domainPart cs := by
    have := (List.takeWhile_append_dropWhile (fun c => c != '@') cs).symm
    rw [hd] at this
    simpa [localPart, domainPart, hd] using this
  have hloc : '@' ∉ localPart cs := by
    intro h
    have := List.mem_takeWhile_imp h
    simp at this
  refine ⟨hsplit, hloc, ?_⟩
  have hc : (localPart cs ++ '@' :: domainPart cs).count '@' = 1 := by rw [← hsplit]; exact hcount
  rw [List.count_append, List.count_cons_self, List.count_eq_zero.mpr hloc] at hc
  exact List.count_eq_zero.mp (by omega)

theorem parts_of_concat (a r : List Char) (ha : '@' ∉ a) :
    localPart (a ++ '@' :: r) = a ∧ domainPart (a ++ '@' :: r) = r := by
  have hall : ∀ x ∈ a, (fun c => c != '@') x = true := by
    intro x hx
    have : x ≠ '@' := fun h => ha (h ▸ hx)
    simpa using this
  constructor
  · unfold localPart
    rw [List.takeWhile_append_of_pos hall]
    simp [List.takeWhile]
  · unfold domainPart
    rw [List.dropWhile_append_of_pos hall]
    simp [List.dropWhile]

/-- The pattern of `validateForm` accepts exactly the strings of the described shape. -/
theorem regexTest_emailPattern_iff (e : String) :
    regexTest emailPattern e = true ↔ EmailShape e := by
  unfold regexTest EmailShape
  rw [matchItems_emailPattern]
  constructor
  · rintro ⟨a, b, c, hcs, ha, hb, hc, hall⟩
    have ha_at : '@' ∉ a := fun h => (hall _ (Or.inl h)).2 rfl
    have hb_at : '@' ∉ b := fun h => (hall _ (Or.inr (Or.inl h))).2 rfl
    have hc_at : '@' ∉ c := fun h => (hall _ (Or.inr (Or.inr h))).2 rfl
    obtain ⟨hl, hd⟩ := parts_of_concat a (b ++ '.' :: c) ha_at
    rw [hcs, hl, hd]
    refine ⟨?_, ?_, ha, b.length, ?_, ?_, ?_, ?_⟩
    · intro x hx
      simp only [List.mem_append, List.mem_cons] at hx
      rcases hx with hx | rfl | hx | rfl | hx
      · exact (hall x (Or.inl hx)).1
      · decide
      · exact (hall x (Or.inr (Or.inl hx))).1
      · decide
      · exact (hall x (Or.inr (Or.inr hx))).1
    · rw [List.count_append, List.count_cons_self, List.count_append, List.count_cons_of_ne (by decide),
        List.count_eq_zero.mpr ha_at, List.count_eq_zero.mpr hb_at, List.count_eq_zero.mpr hc_at]
    · simp
    · exact List.length_pos.mpr hb
    · have := List.length_pos.mpr hc
      simp
      omega
    · rw [List.getElem?_append_right (Nat.le_refl _)]
      simp
  · rintro ⟨hws, hcount, hloc, i, -, hi0, hi1, hdot⟩
    obtain ⟨hsplit, hl_at, hd_at⟩ := split_at_of_shape e.data hcount
    obtain ⟨hilt, hget⟩ := List.getElem?_eq_some.mp hdot
    have hdom : domainPart e.data =
        (domainPart e.data).take i ++ '.' :: (domainPart e.data).drop (i + 1) := by
      conv_lhs => rw [← List.take_append_drop i (domainPart e.data)]
      rw [List.drop_eq_getElem_cons hilt, hget]
    refine ⟨localPart e.data, (domainPart e.data).take i, (domainPart e.data).drop (i + 1),
      ?_, hloc, ?_, ?_, ?_⟩
    · rw [← hdom]; exact hsplit
    · intro h
      have := congrArg List.length h
      rw [List.length_take, List.length_nil] at this
      omega
    · intro h
      have := congrArg List.length h
      rw [List.length_drop, List.length_nil] at this
      omega
    · intro x hx
      have hxe : x ∈ e.data ∧ x ≠ '@' := by
        rcases hx with hx | hx | hx
        · refine ⟨?_, fun h => hl_at (h ▸ hx)⟩
          rw [hsplit]; exact List.mem_append_left _ hx
        · have hxd := List.mem_of_mem_take hx
          refine ⟨?_, fun h => hd_at (h ▸ hxd)⟩
          rw [hsplit]; exact List.mem_append_right _ (List.mem_cons_of_mem _ hxd)
        · have hxd := List.mem_of_mem_drop hx
          refine ⟨?_, fun h => hd_at (h ▸ hxd)⟩
          rw [hsplit]; exact List.mem_append_right _ (List.mem_cons_of_mem _ hxd)
      exact ⟨hws x hxe.1, hxe.2⟩


/-! ## The validator -/

theorem validateForm_cases (s : FormState) :
    (UsernameRule s →
      validateForm s = (false, [.setMessage "Please enter a username.", .setIsError true])) ∧
    (¬UsernameRule s → EmailRule s →
      validateForm s = (false, [.setMessage "Please enter a valid email.", .setIsError true])) ∧
    (¬UsernameRule s → ¬EmailRule s → PasswordRule s →
      validateForm s =
        (false, [.setMessage "Password must be at least 6 characters long.", .setIsError true])) ∧
    (¬UsernameRule s → ¬EmailRule s → ¬PasswordRule s → validateForm s = (true, [])) := by
  have hu : (!s.isLogin && !jsTruthy (jsTrim s.formData.username)) = true ↔ UsernameRule s := by
    unfold UsernameRule
    rw [← jsTrim_blank]
    simp
  have he : (!regexTest emailPattern s.formData.email) = true ↔ EmailRule s := by
    unfold EmailRule
    simp
  refine ⟨?_, ?_, ?_, ?_⟩
  · intro h1
    unfold validateForm
    rw [if_pos (hu.mpr h1)]
  · intro h1 h2
    unfold validateForm
    rw [if_neg (fun h => h1 (hu.mp h)), if_pos (he.mpr h2)]
  · intro h1 h2 h3
    unfold PasswordRule at h3
    unfold validateForm
    rw [if_neg (fun h => h1 (hu.mp h)), if_neg (fun h => h2 (he.mp h)), if_pos h3]
  · intro h1 h2 h3
    unfold PasswordRule at h3
    unfold validateForm
    rw [if_neg (fun h => h1 (hu.mp h)), if_neg (fun h => h2 (he.mp h)), if_neg h3]

theorem validateForm_true_iff (s : FormState) :
    (validateForm s).1 = true ↔ ¬UsernameRule s ∧ ¬EmailRule s ∧ ¬PasswordRule s := by
  obtain ⟨c1, c2, c3, c4⟩ := validateForm_cases s
  by_cases h1 : UsernameRule s
  · simp [c1 h1, h1]
  · by_cases h2 : EmailRule s
    · simp [c2 h1 h2, h2]
    · by_cases h3 : PasswordRule s
      · simp [c3 h1 h2 h3, h3]
      · simp [c4 h1 h2 h3, h1, h2, h3]

theorem validateForm_eq_of_valid (s : FormState) (h : (validateForm s).1 = true) :
    validateForm s = (true, []) := by
  obtain ⟨h1, h2, h3⟩ := (validateForm_true_iff s).mp h
  exact (validateForm_cases s).2.2.2 h1 h2 h3

/-- C1: `validateForm` fails with exactly the message of the first matching
rule, in the order username (Register mode only), email, password; it returns
true exactly when no rule matches; and every failure sets `isError` to true. -/
theorem validateForm_first_matching_rule (s : FormState) :
    (UsernameRule s →
      validateForm s = (false, [.setMessage "Please enter a username.", .setIsError true])) ∧
    (¬UsernameRule s → EmailRule s →
      validateForm s = (false, [.setMessage "Please enter a valid email.", .setIsError true])) ∧
    (¬UsernameRule s → ¬EmailRule s → PasswordRule s →
      validateForm s =
        (false, [.setMessage "Password must be at least 6 characters long.", .setIsError true])) ∧
    ((validateForm s).1 = true ↔ ¬UsernameRule s ∧ ¬EmailRule s ∧ ¬PasswordRule s) ∧
    ((validateForm s).1 = false →
      (applyUpdates s (validateForm s).2).isError = true ∧
      (applyUpdates s (validateForm s).2).formData = s.formData) := by
  obtain ⟨c1, c2, c3, c4⟩ := validateForm_cases s
  refine ⟨c1, c2, c3, validateForm_true_iff s, ?_⟩
  intro hf
  by_cases h1 : UsernameRule s
  · rw [c1 h1]; exact ⟨rfl, rfl⟩
  · by_cases h2 : EmailRule s
    · rw [c2 h1 h2]; exact ⟨rfl, rfl⟩
    · by_cases h3 : PasswordRule s
      · rw [c3 h1 h2 h3]; exact ⟨rfl, rfl⟩
      · rw [c4 h1 h2 h3] at hf
        simp at hf

/-- Witness for C1: a Register form with a blank username, an unaccepted email
and a short password reports the username message. -/
theorem validateForm_first_matching_rule_witness :
    UsernameRule { isLogin := false, formData := ⟨"  ", "a@b", "abc"⟩,
                   message := "", isError := false } ∧
    validateForm { isLogin := false, formData := ⟨"  ", "a@b", "abc"⟩,
                   message := "", isError := false } =
      (false, [.setMessage "Please enter a username.", .setIsError true]) :=
  ⟨by decide, (validateForm_first_matching_rule _).1 (by decide)⟩

/-! ## The mode toggle -/

/-- C5: from any state, the mode toggle flips the mode and leaves username,
email, password and message empty and `isError` false. -/
theorem toggleMode_flips_and_clears (s : FormState) :
    (applyUpdates s (toggleMode s)).isLogin = (!s.isLogin) ∧
    (applyUpdates s (toggleMode s)).formData.username = "" ∧
    (applyUpdates s (toggleMode s)).formData.email = "" ∧
    (applyUpdates s (toggleMode s)).formData.password = "" ∧
    (applyUpdates s (toggleMode s)).message = "" ∧
    (applyUpdates s (toggleMode s)).isError = false :=
  ⟨rfl, rfl, rfl, rfl, rfl, rfl⟩

/-! ## The email pattern -/

/-- C9: the email pattern accepts exactly the strings with no whitespace,
exactly one `@`, a non-empty part before it, and after it a `.` that is neither
first nor last; and once the username rule has passed, `validateForm` reports
the email message for exactly the other strings. -/
theorem emailPattern_accepts_iff_shape (e : String) :
    (regexTest emailPattern e = true ↔ EmailShape e) ∧
    ∀ s : FormState, s.formData.email = e → ¬UsernameRule s →
      (validateForm s = (false, [.setMessage "Please enter a valid email.", .setIsError true]) ↔
        ¬EmailShape e) := by
  refine ⟨regexTest_emailPattern_iff e, ?_⟩
  intro s hs hu
  subst hs
  obtain ⟨-, c2, c3, c4⟩ := validateForm_cases s
  rw [← regexTest_emailPattern_iff]
  constructor
  · intro hv
    by_cases h2 : EmailRule s
    · unfold EmailRule at h2
      simp [h2]
    · exfalso
      by_cases h3 : PasswordRule s
      · rw [c3 hu h2 h3] at hv
        revert hv
        decide
      · rw [c4 hu h2 h3] at hv
        simp at hv
  · intro hn
    exact c2 hu (by unfold EmailRule; simpa using hn)

/-- Witness for C9: in Login mode the email `a@b` (no dot after the `@`) is
reported as invalid. -/
theorem emailPattern_accepts_iff_shape_witness :
    ¬EmailShape "a@b" ∧
    validateForm { isLogin := true, formData := ⟨"", "a@b", "secret1"⟩,
                   message := "", isError := false } =
      (false, [.setMessage "Please enter a valid email.", .setIsError true]) :=
  ⟨by decide,
   ((emailPattern_accepts_iff_shape "a@b").2
      { isLogin := true, formData := ⟨"", "a@b", "secret1"⟩, message := "", isError := false }
      rfl (by decide)).mpr (by decide)⟩

/-! ## The submission workflow -/

theorem string_eq_empty_iff (t : String) : t = "" ↔ t.data = [] := by
  rw [String.ext_iff]

theorem orElse_some (X fallback : String) :
    orElse (some X) fallback = if X = "" then fallback else X := by
  unfold orElse jsTruthy
  by_cases h : X = ""
  · subst h
    rfl
  · have hd : X.data ≠ [] := fun hd => h ((string_eq_empty_iff X).mpr hd)
    simp [h, hd]

theorem orElse_ne_empty (t : Option String) (fallback : String) (h : fallback ≠ "") :
    orElse t fallback ≠ "" := by
  cases t with
  | none => exact h
  | some X =>
    rw [orElse_some]
    by_cases hX : X = ""
    · rw [if_pos hX]; exact h
    · rw [if_neg hX]; exact hX

theorem submit_of_invalid (s : FormState) (outcomes : Nat → Except AxiosError Response)
    (h : (validateForm s).1 = false) :
    submit s outcomes = (applyUpdates s (validateForm s).2, []) := by
  unfold submit handleSubmit
  rcases hv : validateForm s with ⟨b, us⟩
  rw [hv] at h
  simp only at h
  subst h
  rfl

theorem submit_of_valid_login (s : FormState) (outcomes : Nat → Except AxiosError Response)
    (hmode : s.isLogin = true) (h : (validateForm s).1 = true) :
    submit s outcomes =
      (applyUpdates s (handleLogin s ⟨outcomes, []⟩).1, (handleLogin s ⟨outcomes, []⟩).2.calls) := by
  unfold submit handleSubmit
  rw [validateForm_eq_of_valid s h]
  simp [hmode]

theorem submit_of_valid_register (s : FormState) (outcomes : Nat → Except AxiosError Response)
    (hmode : s.isLogin = false) (h : (validateForm s).1 = true) :
    submit s outcomes =
      (applyUpdates s (handleRegisterAndLogin s ⟨outcomes, []⟩).1,
        (handleRegisterAndLogin s ⟨outcomes, []⟩).2.calls) := by
  unfold submit handleSubmit
  rw [validateForm_eq_of_valid s h]
  simp [hmode]

/-- For every valid Login submission whose login call succeeds, the success
message is enqueued first and then overwritten by `resetForm`. -/
theorem handleLogin_success_final_state (s : FormState)
    (outcomes : Nat → Except AxiosError Response) (r : Response)
    (hmode : s.isLogin = true) (hvalid : (validateForm s).1 = true)
    (hok : outcomes 0 = .ok r) :
    (handleLogin s ⟨outcomes, []⟩).1 =
      [.setMessage ("Login successful. Welcome, " ++ r.username ++ "!"), .setIsError false,
       .setFormData ⟨"", "", ""⟩, .setMessage "", .setIsError false] ∧
    (submit s outcomes).1 =
      { isLogin := true, formData := ⟨"", "", ""⟩, message := "", isError := false } := by
  rw [submit_of_valid_login s outcomes hmode hvalid]
  simp [handleLogin, post, hok, resetForm, applyUpdates, Update.apply, hmode]

/-- C2 (evaluation at the failing input): a valid Login form whose login call
succeeds with `user.username = "alice"` enqueues the welcome message and then
`resetForm` overwrites it, so the final message is empty. -/
theorem handleLogin_success_message_cleared :
    sampleLogin.isLogin = true ∧ (validateForm sampleLogin).1 = true ∧
    (handleLogin sampleLogin ⟨scripted [.ok ⟨"alice"⟩], []⟩).1 =
      [.setMessage "Login successful. Welcome, alice!", .setIsError false,
       .setFormData ⟨"", "", ""⟩, .setMessage "", .setIsError false] ∧
    (submit sampleLogin (scripted [.ok ⟨"alice"⟩])).1.message = "" ∧
    (submit sampleLogin (scripted [.ok ⟨"alice"⟩])).1.message ≠
      "Login successful. Welcome, alice!" := by
  decide

/-- C3 (evaluation at the failing input): a valid Register form whose register
call is rejected with 409 issues a login call with the submitted email and
password; when that login succeeds the welcome-back message is enqueued and
then overwritten by `resetForm`, so no message is displayed. -/
theorem conflict_fallback_success_message_cleared :
    sampleRegister.isLogin = false ∧ (validateForm sampleRegister).1 = true ∧
    (submit sampleRegister (scripted [rejected 409 none, .ok ⟨"alice"⟩])).2 =
      [.register "alice" "alice@example.com" "secret1",
       .login "alice@example.com" "secret1"] ∧
    (handleSubmit sampleRegister ⟨scripted [rejected 409 none, .ok ⟨"alice"⟩], []⟩).1 =
      [.setMessage "Login successful. Welcome back, alice!", .setIsError false,
       .setFormData ⟨"", "", ""⟩, .setMessage "", .setIsError false] ∧
    (submit sampleRegister (scripted [rejected 409 none, .ok ⟨"alice"⟩])).1.message = "" := by
  decide

/-- C8 (evaluation at the failing input): a valid Register form whose register
call succeeds and whose login call is rejected with status 409 issues a third
call, a second login. -/
theorem login_conflict_issues_third_call :
    sampleRegister.isLogin = false ∧ (validateForm sampleRegister).1 = true ∧
    (submit sampleRegister (scripted [.ok ⟨""⟩, rejected 409 none, .ok ⟨"alice"⟩])).2 =
      [.register "alice" "alice@example.com" "secret1",
       .login "alice@example.com" "secret1",
       .login "alice@example.com" "secret1"] ∧
    (submit sampleRegister (scripted [.ok ⟨""⟩, rejected 409 none, .ok ⟨"alice"⟩])).2.length = 3 := by
  decide

/-- What does hold of the number of calls: none when validation fails, one
login in Login mode, never more than three, and at most two unless the login
that follows a successful registration is itself rejected with 409. -/
theorem submit_calls_bounds (s : FormState) (outcomes : Nat → Except AxiosError Response) :
    ((validateForm s).1 = false → (submit s outcomes).2 = []) ∧
    ((validateForm s).1 = true → s.isLogin = true →
      (submit s outcomes).2 = [.login s.formData.email s.formData.password]) ∧
    (submit s outcomes).2.length ≤ 3 ∧
    ((∀ r e, outcomes 0 = .ok r → outcomes 1 = .error e → isConflict e = false) →
      (submit s outcomes).2.length ≤ 2) := by
  have htry : ∀ n : Net, (tryLoginAfterRegister s n).2.calls.length = n.calls.length + 1 := by
    intro n
    cases hn : n.outcomes n.calls.length <;> simp [tryLoginAfterRegister, post, hn]
  have hcatch : ∀ (e : AxiosError) (n : Net),
      (registerCatch s e n).2.calls.length =
        n.calls.length + (if isConflict e then 1 else 0) := by
    intro e n
    unfold registerCatch
    cases hc : isConflict e
    · simp
    · simp [htry]
  cases hv : (validateForm s).1 with
  | false => simp [submit_of_invalid s outcomes hv]
  | true =>
    cases hmode : s.isLogin with
    | true =>
      rw [submit_of_valid_login s outcomes hmode hv]
      cases h0 : outcomes 0 <;> simp [handleLogin, post, h0]
    | false =>
      rw [submit_of_valid_register s outcomes hmode hv]
      cases h0 : outcomes 0 with
      | error e =>
        simp only [handleRegisterAndLogin, post, List.length_nil, h0, hcatch]
        cases isConflict e <;> simp
      | ok r =>
        cases h1 : outcomes 1 with
        | error e =>
          simp only [handleRegisterAndLogin, post, List.length_nil, h0, List.nil_append,
            List.length_singleton, h1, hcatch]
          cases hc : isConflict e
          · simp
          · simp
            exact hc
        | ok r1 => simp [handleRegisterAndLogin, post, h0, h1]

/-- C4 (counterexample): with the response body `{ error: "" }` and status 500
the displayed message is the generic registration-failure text, not the
server's (empty) error string. -/
theorem register_rejected_empty_text_counterexample :
    sampleRegister.isLogin = false ∧ (validateForm sampleRegister).1 = true ∧
    (submit sampleRegister (scripted [rejected 500 (some "")])).1.message =
      "Registration failed. Please try again." ∧
    (submit sampleRegister (scripted [rejected 500 (some "")])).1.message ≠ "" := by
  decide

/-- C4 (amended): for a valid Register form whose register call is rejected
with a status other than 409 and body `{ error: X }`, the message is `X` when
`X` is non-empty and the generic registration-failure text when `X` is empty;
`isError` is true, the fields keep the submitted values, and only the register
call is issued. -/
theorem register_rejected_shows_server_text (s : FormState)
    (outcomes : Nat → Except AxiosError Response) (status : Nat) (X : String)
    (hmode : s.isLogin = false) (hvalid : (validateForm s).1 = true)
    (hfail : outcomes 0 = rejected status (some X)) (hstatus : status ≠ 409) :
    (submit s outcomes).1.message =
      (if X = "" then "Registration failed. Please try again." else X) ∧
    (submit s outcomes).1.isError = true ∧
    (submit s outcomes).1.formData = s.formData ∧
    (submit s outcomes).2 =
      [.register s.formData.username s.formData.email s.formData.password] := by
  rw [submit_of_valid_register s outcomes hmode hvalid]
  simp [handleRegisterAndLogin, post, hfail, rejected, registerCatch, isConflict, hstatus,
    errorText, orElse_some, applyUpdates, Update.apply]

/-- Witness for C4 (amended): status 500 with body `{ error: "Email is taken" }`. -/
theorem register_rejected_shows_server_text_witness :
    (submit sampleRegister (scripted [rejected 500 (some "Email is taken")])).1.message =
      (if "Email is taken" = "" then "Registration failed. Please try again."
        else "Email is taken") ∧
    (submit sampleRegister (scripted [rejected 500 (some "Email is taken")])).1.isError = true ∧
    (submit sampleRegister (scripted [rejected 500 (some "Email is taken")])).1.formData =
      sampleRegister.formData ∧
    (submit sampleRegister (scripted [rejected 500 (some "Email is taken")])).2 =
      [.register sampleRegister.formData.username sampleRegister.formData.email
        sampleRegister.formData.password] :=
  register_rejected_shows_server_text sampleRegister
    (scripted [rejected 500 (some "Email is taken")]) 500 "Email is taken"
    rfl (by decide) rfl (by decide)

theorem valid_in_login_mode (s : FormState) (hvalid : (validateForm s).1 = true) :
    (validateForm { s with isLogin := true }).1 = true := by
  obtain ⟨-, h2, h3⟩ := (validateForm_true_iff s).mp hvalid
  refine (validateForm_true_iff _).mpr ⟨?_, h2, h3⟩
  rintro ⟨h, -⟩
  simp at h

/-- C6 (counterexample): after a successful registration, a login rejected
with status 401 leaves the submitted fields in place, and without a server
text the message is the generic registration-failure text. -/
theorem login_after_register_rejected_counterexample :
    sampleRegister.isLogin = false ∧ (validateForm sampleRegister).1 = true ∧
    (submit sampleRegister
        (scripted [.ok ⟨""⟩, rejected 401 (some "Invalid credentials")])).1.formData =
      ⟨"alice", "alice@example.com", "secret1"⟩ ∧
    (submit sampleRegister
        (scripted [.ok ⟨""⟩, rejected 401 (some "Invalid credentials")])).1.formData ≠
      ⟨"", "", ""⟩ ∧
    (submit sampleRegister (scripted [.ok ⟨""⟩, rejected 401 none])).1.message ≠
      "Login failed after registration attempt." := by
  decide

/-- C6 (amended): for a valid Register form whose register call succeeds and
whose login call is then rejected with a status other than 409, `isError` is
true, the fields keep the submitted values, a non-empty server error text is
the message, and exactly the register call and one login call are issued. -/
theorem login_after_register_rejected_keeps_fields (s : FormState)
    (outcomes : Nat → Except AxiosError Response) (r : Response) (e : AxiosError)
    (hmode : s.isLogin = false) (hvalid : (validateForm s).1 = true)
    (hreg : outcomes 0 = .ok r) (hlogin : outcomes 1 = .error e)
    (hstatus : isConflict e = false) :
    (submit s outcomes).1.isError = true ∧
    (submit s outcomes).1.formData = s.formData ∧
    (∀ X, errorText e = some X → X ≠ "" → (submit s outcomes).1.message = X) ∧
    (submit s outcomes).2 =
      [.register s.formData.username s.formData.email s.formData.password,
       .login s.formData.email s.formData.password] := by
  rw [submit_of_valid_register s outcomes hmode hvalid]
  simp only [handleRegisterAndLogin, post, List.length_nil, hreg, List.nil_append,
    List.length_singleton, hlogin, registerCatch, hstatus, Bool.false_eq_true, if_false,
    applyUpdates, List.foldl, Update.apply, List.singleton_append, true_and]
  refine ⟨fun X hX hne => ?_, trivial⟩
  rw [hX, orElse_some, if_neg hne]

/-- Witness for C6 (amended): registration succeeds, the login is rejected
with 401 and body `{ error: "Invalid credentials" }`. -/
theorem login_after_register_rejected_keeps_fields_witness :
    (submit sampleRegister
        (scripted [.ok ⟨""⟩, rejected 401 (some "Invalid credentials")])).1.isError = true ∧
    (submit sampleRegister
        (scripted [.ok ⟨""⟩, rejected 401 (some "Invalid credentials")])).1.formData =
      sampleRegister.formData ∧
    (submit sampleRegister
        (scripted [.ok ⟨""⟩, rejected 401 (some "Invalid credentials")])).1.message =
      "Invalid credentials" :=
  have h := login_after_register_rejected_keeps_fields sampleRegister
    (scripted [.ok ⟨""⟩, rejected 401 (some "Invalid credentials")]) ⟨""⟩
    ⟨some ⟨401, some "Invalid credentials"⟩⟩ rfl (by decide) rfl rfl rfl
  ⟨h.1, h.2.1, h.2.2.1 "Invalid credentials" rfl (by decide)⟩

/-- C7 (counterexample): when the register call is rejected with 409 and the
fallback login is rejected without a server text, the fields keep the submitted
values and the message differs from the one the Login path shows for the same
login outcome. -/
theorem conflict_fallback_rejected_counterexample :
    sampleRegister.isLogin = false ∧ (validateForm sampleRegister).1 = true ∧
    (submit sampleRegister (scripted [rejected 409 none, rejected 401 none])).1.formData ≠
      ⟨"", "", ""⟩ ∧
    (submit sampleRegister (scripted [rejected 409 none, rejected 401 none])).1.message =
      "Login failed after registration attempt." ∧
    (submit { sampleRegister with isLogin := true } (scripted [rejected 401 none])).1.message =
      "Login failed. Please check your credentials." ∧
    (submit sampleRegister (scripted [rejected 409 none, rejected 401 none])).1.message ≠
      (submit { sampleRegister with isLogin := true } (scripted [rejected 401 none])).1.message := by
  decide

/-- C7 (amended): for a valid Register form whose register call is rejected
with 409, one fallback login with the submitted email and password is issued;
when it succeeds the fields are reset to empty; when it is rejected the fields
keep the submitted values, `isError` is true, and the message is the server
error text when that is non-empty (as on the Login path for the same outcome)
and otherwise "Login failed after registration attempt.". -/
theorem conflict_fallback_resets_only_on_success (s : FormState)
    (outcomes : Nat → Except AxiosError Response) (e0 : AxiosError)
    (hmode : s.isLogin = false) (hvalid : (validateForm s).1 = true)
    (hreg : outcomes 0 = .error e0) (hconflict : isConflict e0 = true) :
    (submit s outcomes).2 =
      [.register s.formData.username s.formData.email s.formData.password,
       .login s.formData.email s.formData.password] ∧
    (∀ r, outcomes 1 = .ok r → (submit s outcomes).1.formData = ⟨"", "", ""⟩) ∧
    (∀ e, outcomes 1 = .error e →
      (submit s outcomes).1.formData = s.formData ∧
      (submit s outcomes).1.isError = true ∧
      (submit s outcomes).1.message =
        orElse (errorText e) "Login failed after registration attempt." ∧
      ∀ X, errorText e = some X → X ≠ "" →
        (submit s outcomes).1.message = X ∧
        (submit { s with isLogin := true } (fun _ => outcomes 1)).1.message = X) := by
  rw [submit_of_valid_register s outcomes hmode hvalid]
  refine ⟨?_, ?_, ?_⟩
  · cases h1 : outcomes 1 <;>
      simp [handleRegisterAndLogin, post, hreg, registerCatch, hconflict,
        tryLoginAfterRegister, h1]
  · intro r h1
    simp [handleRegisterAndLogin, post, hreg, registerCatch, hconflict,
      tryLoginAfterRegister, h1, resetForm, applyUpdates, Update.apply]
  · intro e h1
    have hst : applyUpdates s (handleRegisterAndLogin s ⟨outcomes, []⟩).1 =
        { s with message := orElse (errorText e) "Login failed after registration attempt.",
                 isError := true } := by
      simp [handleRegisterAndLogin, post, hreg, registerCatch, hconflict,
        tryLoginAfterRegister, h1, applyUpdates, Update.apply]
    rw [hst]
    refine ⟨rfl, rfl, rfl, ?_⟩
    intro X hX hne
    rw [submit_of_valid_login _ _ rfl (valid_in_login_mode s hvalid)]
    simp [handleLogin, post, h1, applyUpdates, Update.apply, hX, orElse_some, hne]

/-- Witness for C7 (amended): the register call is rejected with 409 and the
fallback login with 401 and body `{ error: "Invalid credentials" }`. -/
theorem conflict_fallback_resets_only_on_success_witness :
    (submit sampleRegister
        (scripted [rejected 409 none, rejected 401 (some "Invalid credentials")])).2 =
      [.register "alice" "alice@example.com" "secret1",
       .login "alice@example.com" "secret1"] ∧
    (submit sampleRegister
        (scripted [rejected 409 none, rejected 401 (some "Invalid credentials")])).1.formData =
      sampleRegister.formData ∧
    (submit sampleRegister
        (scripted [rejected 409 none, rejected 401 (some "Invalid credentials")])).1.message =
      "Invalid credentials" :=
  have h := conflict_fallback_resets_only_on_success sampleRegister
    (scripted [rejected 409 none, rejected 401 (some "Invalid credentials")])
    ⟨some ⟨409, none⟩⟩ rfl (by decide) rfl rfl
  ⟨h.1, (h.2.2 ⟨some ⟨401, some "Invalid credentials"⟩⟩ rfl).1,
   ((h.2.2 ⟨some ⟨401, some "Invalid credentials"⟩⟩ rfl).2.2.2
      "Invalid credentials" rfl (by decide)).1⟩

/-! ## Reachable states -/

/-- After any completed submission the error flag and the message agree: either
an error with a non-empty message, or no error. -/
theorem submit_error_has_message (s : FormState)
    (outcomes : Nat → Except AxiosError Response) :
    (submit s outcomes).1.isError = true → (submit s outcomes).1.message ≠ "" := by
  cases hv : (validateForm s).1 with
  | false =>
    rw [submit_of_invalid s outcomes hv]
    obtain ⟨c1, c2, c3, c4⟩ := validateForm_cases s
    by_cases h1 : UsernameRule s
    · rw [c1 h1]; intro _; simp only [applyUpdates, List.foldl, Update.apply]; decide
    · by_cases h2 : EmailRule s
      · rw [c2 h1 h2]; intro _; simp only [applyUpdates, List.foldl, Update.apply]; decide
      · by_cases h3 : PasswordRule s
        · rw [c3 h1 h2 h3]; intro _; simp only [applyUpdates, List.foldl, Update.apply]; decide
        · rw [c4 h1 h2 h3] at hv
          simp at hv
  | true =>
    cases hmode : s.isLogin with
    | true =>
      rw [submit_of_valid_login s outcomes hmode hv]
      cases h0 : outcomes 0 with
      | ok r => simp [handleLogin, post, h0, resetForm, applyUpdates, Update.apply]
      | error e =>
        simp only [handleLogin, post, List.length_nil, h0, applyUpdates, List.foldl, Update.apply]
        intro _
        exact orElse_ne_empty _ _ (by decide)
    | false =>
      rw [submit_of_valid_register s outcomes hmode hv]
      have htry : ∀ n : Net, (applyUpdates s (tryLoginAfterRegister s n).1).isError = true →
          (applyUpdates s (tryLoginAfterRegister s n).1).message ≠ "" := by
        intro n
        cases hn : n.outcomes n.calls.length with
        | ok r => simp [tryLoginAfterRegister, post, hn, resetForm, applyUpdates, Update.apply]
        | error e =>
          simp only [tryLoginAfterRegister, post, hn, applyUpdates, List.foldl, Update.apply]
          intro _
          exact orElse_ne_empty _ _ (by decide)
      have hcatch : ∀ (e : AxiosError) (n : Net),
          (applyUpdates s (registerCatch s e n).1).isError = true →
          (applyUpdates s (registerCatch s e n).1).message ≠ "" := by
        intro e n
        unfold registerCatch
        cases hc : isConflict e with
        | true => simpa using htry n
        | false =>
          simp only [Bool.false_eq_true, if_false, applyUpdates, List.foldl, Update.apply]
          intro _
          exact orElse_ne_empty _ _ (by decide)
      cases h0 : outcomes 0 with
      | error e =>
        simp only [handleRegisterAndLogin, post, List.length_nil, h0]
        exact hcatch e _
      | ok r =>
        cases h1 : outcomes 1 with
        | error e =>
          simp only [handleRegisterAndLogin, post, List.length_nil, h0, List.nil_append,
            List.length_singleton, h1]
          exact hcatch e _
        | ok r1 =>
          simp [handleRegisterAndLogin, post, h0, h1, resetForm, applyUpdates, Update.apply]

theorem step_error_has_message (s : FormState) (ev : Event)
    (hs : s.isError = true → s.message ≠ "") :
    (step s ev).isError = true → (step s ev).message ≠ "" := by
  cases ev with
  | change f value => cases f <;> exact hs
  | toggle => intro h; simp [step, toggleMode, resetForm, applyUpdates, Update.apply] at h
  | submit outcomes => exact submit_error_has_message s outcomes

theorem run_error_has_message (s : FormState) (es : List Event)
    (hs : s.isError = true → s.message ≠ "") :
    (run s es).isError = true → (run s es).message ≠ "" := by
  induction es generalizing s with
  | nil => exact hs
  | cons ev es ih => exact ih (step s ev) (step_error_has_message s ev hs)

/-- C10: in every state reached from the initial state by field changes, mode
toggles and completed submissions with arbitrary API outcomes, `isError = true`
implies that the message is non-empty. -/
theorem reachable_error_has_message (es : List Event)
    (h : (run initialState es).isError = true) : (run initialState es).message ≠ "" :=
  run_error_has_message initialState es (by decide) h

/-- Witness for C10: typing the email `a@b` and a password and submitting flags
an error and shows a message. -/
theorem reachable_error_has_message_witness :
    (run initialState
      [.change .email "a@b", .change .password "secret1", .submit (scripted [])]).isError = true ∧
    (run initialState
      [.change .email "a@b", .change .password "secret1", .submit (scripted [])]).message ≠ "" :=
  ⟨by decide,
   reachable_error_has_message
     [.change .email "a@b", .change .password "secret1", .submit (scripted [])] (by decide)⟩

end Login
